import Mathlib

/-!
Shallow embedding of the restaurant-database CLI (src/cli.py, src/database.py).

Rows of the SQLite tables become Lean structures; the database file becomes an
explicit `DB` value; each CLI workflow becomes a pure function
`DB → Except Err (DB × result)` mirroring the Python statement-by-statement.
Prices are modelled as `Rat` (the Python uses floats, but every operation the
claims touch is exact: comparisons with 0 and snapshot copies).
Dates are modelled as ordinal days (`Nat`, totally ordered like Python `date`);
times of day as minutes since midnight (`Nat`, canonical zero-padded `HH:MM`
strings are order-isomorphic to their minute values).
-/

namespace Restaurant

/-- Status values of the `reservations.status` column. -/
inductive ResStatus
  | Confirmed
  | Seated
  | Cancelled
  | NoShow
deriving DecidableEq

/-- Status values of the `orders.status` column. -/
inductive OrderStatus
  | Opened
  | InProgress
  | Completed
  | Cancelled
deriving DecidableEq

/-- Row of the `customers` table (fields used by the workflows). -/
structure Customer where
  customer_id : Nat
  first_name : String
  last_name : String
deriving DecidableEq

/-- Row of the `tables` table (fields used by the workflows). -/
structure TableRec where
  table_id : Nat
  table_number : String
  capacity : Int
  is_active : Bool
deriving DecidableEq

/-- Row of the `reservations` table. -/
structure Reservation where
  reservation_id : Nat
  customer_id : Nat
  table_id : Nat
  reservation_date : Nat
  reservation_time : Nat
  party_size : Int
  status : ResStatus
  special_requests : Option String
deriving DecidableEq

/-- Row of the `categories` table. -/
structure Category where
  category_id : Nat
  cat_name : String
deriving DecidableEq

/-- Row of the `menu_items` table. -/
structure MenuItem where
  item_id : Nat
  name : String
  description : Option String
  price : Rat
  category_id : Nat
  is_available : Bool
deriving DecidableEq

/-- Row of the `orders` table.  The stored columns; `subtotal`/`total` are
generated by the storage engine from `order_items` (schema.sql is not in the
snapshot), so they are derived functions below rather than stored fields;
`tip` is stored (0 until explicitly set, per the spec). -/
structure OrderRec where
  order_id : Nat
  customer_id : Option Nat
  employee_id : Nat
  table_id : Option Nat
  status : OrderStatus
  tip : Rat
deriving DecidableEq

/-- Row of the `order_items` table. -/
structure OrderItem where
  order_item_id : Nat
  order_id : Nat
  item_id : Nat
  quantity : Int
  unit_price : Rat
  special_instructions : Option String
deriving DecidableEq

/-- The database state: the tables the claimed workflows touch, plus the next
rowid for each table that the workflows insert into (SQLite assigns
`lastrowid` this way for fresh tables). -/
structure DB where
  customers : List Customer
  tables : List TableRec
  reservations : List Reservation
  categories : List Category
  menu_items : List MenuItem
  orders : List OrderRec
  order_items : List OrderItem
  nextReservationId : Nat
  nextMenuItemId : Nat
  nextOrderItemId : Nat
deriving DecidableEq

/-- Error outcomes; each corresponds to one distinct `typer.Exit` path with its
own message in src/cli.py. -/
inductive Err
  | invalidDate
  | invalidPartySize
  | customerNotFound (id : Nat)
  | tableNotFound (id : Nat)
  | userDeclined
  | slotConflict
  | invalidQuantity
  | orderNotFound (id : Nat)
  | orderClosed
  | itemNotFound (id : Nat)
  | itemUnavailableDeclined
  | noChangeRequested
  | invalidPrice
  | categoryNotFound (id : Nat)
deriving DecidableEq

/-- `SELECT ... FROM customers WHERE customer_id = ?` followed by `fetchone()`. -/
def findCustomer (db : DB) (cid : Nat) : Option Customer :=
  db.customers.find? (fun c => c.customer_id == cid)

/-- `SELECT ... FROM tables WHERE table_id = ?` followed by `fetchone()`. -/
def findTable (db : DB) (tid : Nat) : Option TableRec :=
  db.tables.find? (fun t => t.table_id == tid)

/-- `SELECT ... FROM menu_items WHERE item_id = ?` followed by `fetchone()`. -/
def findMenuItem (db : DB) (iid : Nat) : Option MenuItem :=
  db.menu_items.find? (fun mi => mi.item_id == iid)

/-- `SELECT ... FROM categories WHERE category_id = ?` followed by `fetchone()`. -/
def findCategory (db : DB) (cid : Nat) : Option Category :=
  db.categories.find? (fun c => c.category_id == cid)

/-- `SELECT ... FROM orders WHERE order_id = ?` followed by `fetchone()`. -/
def findOrder (db : DB) (oid : Nat) : Option OrderRec :=
  db.orders.find? (fun o => o.order_id == oid)

/-- SQLite `time(t, delta)` on a canonical time of day: shift by `delta`
minutes, wrapping on the 24-hour clock. -/
def timeShift (t : Nat) (delta : Int) : Nat :=
  (((t : Int) + delta) % 1440).toNat

/-- The SQL condition
`x BETWEEN time(t, '-1 hour') AND time(t, '+1 hour')`
as it evaluates in SQLite on the stored data.  `time()` renders its result as
an 8-character `HH:MM:SS` string while the stored `reservation_time` values
written by the CLI are 5-character `HH:MM` strings, and SQLite compares the
two as text: a stored `x` satisfies `x >= 'HH:MM:SS'` exactly when its `HH:MM`
prefix is strictly greater than the bound's `HH:MM` prefix (equal prefixes make
the shorter string smaller), and `x <= 'HH:MM:SS'` exactly when its prefix is
less than or equal to the bound's prefix.  On canonical zero-padded strings the
prefix order is the minute order, giving a lower bound that is strict and an
upper bound that is inclusive. -/
def inConflictWindow (t x : Nat) : Bool :=
  decide (timeShift t (-60) < x) && decide (x ≤ timeShift t 60)

/-- The conflict subquery of `create_reservation` (src/cli.py lines 205-210):
a blocking reservation on the same table and date whose time falls in the
window, with status Confirmed or Seated. -/
def hasSlotConflict (db : DB) (tid : Nat) (d : Nat) (t : Nat) : Bool :=
  db.reservations.any (fun r =>
    r.table_id == tid && r.reservation_date == d
      && inConflictWindow t r.reservation_time
      && decide (r.status = .Confirmed ∨ r.status = .Seated))

/-- Input record of `create_reservation`, after the date/time format parse
(the pure-glue argument layer). -/
structure ReservationRequest where
  customer_id : Nat
  table_id : Nat
  res_date : Nat
  res_time : Nat
  party_size : Int
  notes : Option String
deriving DecidableEq

/-- The row inserted by `create_reservation`'s `INSERT INTO reservations`
(src/cli.py lines 217-221), with the generated rowid.  The insert omits the
status column, so the row carries the schema default (schema.sql is not in the
snapshot; the spec's lifecycle makes Confirmed the creation status, and the
blocking rows the spec describes are Confirmed). -/
def newReservationRow (db : DB) (req : ReservationRequest) : Reservation :=
  { reservation_id := db.nextReservationId
    customer_id := req.customer_id
    table_id := req.table_id
    reservation_date := req.res_date
    reservation_time := req.res_time
    party_size := req.party_size
    status := .Confirmed
    special_requests := req.notes }

/-- `create_reservation` (src/cli.py lines 156-233) as a pure function.
`today` stands for `date.today()`; `confirmOverride` stands for the operator's
answer to the interactive capacity-exceeded confirmation. -/
def create_reservation (today : Nat) (confirmOverride : Bool) (db : DB)
    (req : ReservationRequest) : Except Err (DB × Nat) :=
  if req.res_date < today then .error .invalidDate
  else if req.party_size < 1 then .error .invalidPartySize
  else
    match findCustomer db req.customer_id with
    | none => .error (.customerNotFound req.customer_id)
    | some _ =>
      match findTable db req.table_id with
      | none => .error (.tableNotFound req.table_id)
      | some tbl =>
        if req.party_size > tbl.capacity && !confirmOverride then
          .error .userDeclined
        else if hasSlotConflict db req.table_id req.res_date req.res_time then
          .error .slotConflict
        else
          .ok ({ db with
                   reservations := db.reservations ++ [newReservationRow db req]
                   nextReservationId := db.nextReservationId + 1 },
               db.nextReservationId)

instance {E α : Type} [DecidableEq E] [DecidableEq α] :
    DecidableEq (Except E α) := fun a b =>
  match a, b with
  | .ok x, .ok y => decidable_of_iff (x = y) (by simp)
  | .error e, .error f => decidable_of_iff (e = f) (by simp)
  | .ok _, .error _ => isFalse (by simp)
  | .error _, .ok _ => isFalse (by simp)

/-- The database state after the unit of work, as `get_db_cursor` leaves it:
the new state when the body succeeded (commit), the original state when it
raised (rollback). -/
def commitOf {α : Type} (db : DB) (r : Except Err (DB × α)) : DB :=
  match r with
  | .ok (db2, _) => db2
  | .error _ => db

/-- Modelled from the spec: the generated `orders.subtotal` column (schema.sql
is not in the snapshot).  Per the spec, subtotal is the sum of
quantity × unit_price over the order_items of the order. -/
def orderSubtotal (db : DB) (oid : Nat) : Rat :=
  ((db.order_items.filter (fun oi => oi.order_id == oid)).map
    (fun oi => (oi.quantity : Rat) * oi.unit_price)).sum

/-- Modelled from the spec: the generated `orders.total` column, parameterised
by the engine's fixed tax rate: total = subtotal + subtotal × rate + tip. -/
def orderTotal (taxRate : Rat) (db : DB) (oid : Nat) : Rat :=
  let s := orderSubtotal db oid
  let tip := match findOrder db oid with
    | some o => o.tip
    | none => 0
  s + s * taxRate + tip

/-- Input record of `add_order_item`. -/
structure OrderItemRequest where
  order_id : Nat
  item_id : Nat
  quantity : Int
  notes : Option String
deriving DecidableEq

/-- `add_order_item` (src/cli.py lines 335-395) as a pure function.
`confirmUnavailable` stands for the operator's answer to the interactive
add-anyway confirmation for an unavailable item.  Returns the new state and
the re-read order total. -/
def add_order_item (taxRate : Rat) (confirmUnavailable : Bool) (db : DB)
    (req : OrderItemRequest) : Except Err (DB × Rat) :=
  if req.quantity < 1 then .error .invalidQuantity
  else
    match findOrder db req.order_id with
    | none => .error (.orderNotFound req.order_id)
    | some o =>
      if o.status = .Completed ∨ o.status = .Cancelled then .error .orderClosed
      else
        match findMenuItem db req.item_id with
        | none => .error (.itemNotFound req.item_id)
        | some item =>
          if !item.is_available && !confirmUnavailable then
            .error .itemUnavailableDeclined
          else
            let oiid := db.nextOrderItemId
            let db2 := { db with
              order_items := db.order_items ++
                [{ order_item_id := oiid
                   order_id := req.order_id
                   item_id := req.item_id
                   quantity := req.quantity
                   unit_price := item.price
                   special_instructions := req.notes }]
              nextOrderItemId := oiid + 1 }
            .ok (db2, orderTotal taxRate db2 req.order_id)

/-- Input record of `update_menu_item`: the partial-update fields. -/
structure MenuUpdateRequest where
  item_id : Nat
  price : Option Rat
  available : Option Bool
  description : Option String
deriving DecidableEq

/-- Output record of `update_menu_item`: the updated `menu_items` row joined
with its category name. -/
structure MenuItemView where
  item_id : Nat
  name : String
  description : Option String
  price : Rat
  category_id : Nat
  is_available : Bool
  category_name : String
deriving DecidableEq

/-- The row produced by the re-select join
`SELECT mi.*, c.name AS category_name ... JOIN categories c`. -/
def joinView (mi : MenuItem) (c : Category) : MenuItemView :=
  { item_id := mi.item_id
    name := mi.name
    description := mi.description
    price := mi.price
    category_id := mi.category_id
    is_available := mi.is_available
    category_name := c.cat_name }

/-- The effect of the built `UPDATE menu_items SET ...` statement on one row:
each supplied field overwrites, each omitted field is untouched. -/
def applyMenuUpdate (req : MenuUpdateRequest) (mi : MenuItem) : MenuItem :=
  { mi with
    price := req.price.getD mi.price
    is_available := req.available.getD mi.is_available
    description := match req.description with
      | some d => some d
      | none => mi.description }

/-- The `if price <= 0` guard inside the update builder: true when a price was
supplied and it is not positive. -/
def suppliedPriceBad (o : Option Rat) : Bool :=
  match o with
  | some p => decide (p ≤ 0)
  | none => false

/-- `update_menu_item` (src/cli.py lines 603-666) as a pure function.  The
final `match` on the category models the re-select join: were the category row
absent the Python would raise on the `None` fetch and the transaction would
roll back, which the error branch's discarded state mirrors. -/
def update_menu_item (db : DB) (req : MenuUpdateRequest) :
    Except Err (DB × MenuItemView) :=
  if req.price.isNone && req.available.isNone && req.description.isNone then
    .error .noChangeRequested
  else
    match findMenuItem db req.item_id with
    | none => .error (.itemNotFound req.item_id)
    | some _ =>
      if suppliedPriceBad req.price then .error .invalidPrice
      else
        let db2 := { db with
          menu_items := db.menu_items.map (fun mi =>
            if mi.item_id == req.item_id then applyMenuUpdate req mi else mi) }
        match findMenuItem db2 req.item_id with
        | none => .error (.itemNotFound req.item_id)
        | some mi2 =>
          match findCategory db2 mi2.category_id with
          | none => .error (.categoryNotFound mi2.category_id)
          | some c => .ok (db2, joinView mi2 c)

/-- Input record of `add_menu_item`. -/
structure MenuAddRequest where
  name : String
  price : Rat
  category_id : Nat
  description : Option String
deriving DecidableEq

/-- `add_menu_item` (src/cli.py lines 555-599) as a pure function.  The insert
omits `is_available`, so the new row carries the schema default; the spec's
data model (availability flag on a fresh item) makes that default true, and no
claim depends on it. -/
def add_menu_item (db : DB) (req : MenuAddRequest) : Except Err (DB × Nat) :=
  if req.price ≤ 0 then .error .invalidPrice
  else
    match findCategory db req.category_id with
    | none => .error (.categoryNotFound req.category_id)
    | some _ =>
      let iid := db.nextMenuItemId
      .ok ({ db with
               menu_items := db.menu_items ++
                 [{ item_id := iid
                    name := req.name
                    description := req.description
                    price := req.price
                    category_id := req.category_id
                    is_available := true }]
               nextMenuItemId := iid + 1 }, iid)

/-- Observable outcome of one `with get_db_cursor() as (conn, cursor):` block
(src/database.py lines 33-55): the database state left on disk, the outcome
propagated to the caller, and whether the two handles were closed. -/
structure SessionResult (E α : Type) where
  committed : DB
  outcome : Except E α
  cursorClosed : Bool
  connClosed : Bool

/-- `get_db_cursor` (src/database.py lines 33-55) as a pure function.  The
body of the `with` block is `work`, a function threading the uncommitted
state through the statements on the cursor and either returning a value or
raising `e`.  On normal exit the generator commits; on an exception it rolls
back (the uncommitted state is discarded) and re-raises; the `finally` clause
closes the cursor and the connection on both paths. -/
def get_db_cursor {E α : Type} (db : DB) (work : DB → Except E (α × DB)) :
    SessionResult E α :=
  match work db with
  | .ok (a, db2) =>
    { committed := db2, outcome := .ok a, cursorClosed := true, connClosed := true }
  | .error e =>
    { committed := db, outcome := .error e, cursorClosed := true, connClosed := true }

/-- The per-connection settings a caller of `sqlite3.connect` can observe:
whether `PRAGMA foreign_keys = ON` was issued (SQLite's default is OFF) and
whether the row factory was set. -/
structure Connection where
  foreign_keys : Bool
  row_factory_row : Bool
deriving DecidableEq

/-- A raw `sqlite3.connect(path)`: SQLite leaves foreign-key enforcement off
and the default row factory in place. -/
def sqlite3_connect : Connection :=
  { foreign_keys := false, row_factory_row := false }

/-- `get_connection` (src/database.py lines 16-30): connect, set the row
factory, execute `PRAGMA foreign_keys = ON`. -/
def get_connection : Connection :=
  { sqlite3_connect with foreign_keys := true, row_factory_row := true }

/-- The connection `init_database` opens to run the schema script
(src/database.py line 78): a raw `sqlite3.connect(path)` with no pragma.
`reset_database` (lines 148-164) deletes the file and delegates to
`init_database`, so it runs the schema over this same kind of connection. -/
def init_database_connection : Connection :=
  sqlite3_connect

/-- Row of the upcoming-reservations listing: reservation fields joined with
the customer's name and the table number. -/
structure UpcomingRow where
  reservation_id : Nat
  reservation_date : Nat
  reservation_time : Nat
  customer_name : String
  table_number : String
  party_size : Int
  special_requests : Option String
deriving DecidableEq

/-- Date-then-time ascending order on listing rows (the `ORDER BY` of the
upcoming-reservations query). -/
def rowLE (a b : UpcomingRow) : Prop :=
  a.reservation_date < b.reservation_date ∨
    (a.reservation_date = b.reservation_date ∧
      a.reservation_time ≤ b.reservation_time)

instance : DecidableRel rowLE := fun a b => by
  unfold rowLE
  infer_instance

instance : IsTotal UpcomingRow rowLE := by
  constructor
  intro a b
  unfold rowLE
  omega

instance : IsTrans UpcomingRow rowLE := by
  constructor
  intro a b c
  unfold rowLE
  omega

/-- The joined row for one reservation. -/
def mkUpcomingRow (r : Reservation) (c : Customer) (t : TableRec) : UpcomingRow :=
  { reservation_id := r.reservation_id
    reservation_date := r.reservation_date
    reservation_time := r.reservation_time
    customer_name := c.first_name ++ " " ++ c.last_name
    table_number := t.table_number
    party_size := r.party_size
    special_requests := r.special_requests }

/-- Modelled from the spec: `get_upcoming_reservations` lives in `queries.py`,
which is imported by src/cli.py but absent from the snapshot.  Per the spec it
returns all upcoming reservations (date on or after today), each joined with
the customer name and the table number, ordered by date then time ascending. -/
def get_upcoming_reservations (today : Nat) (db : DB) : List UpcomingRow :=
  List.insertionSort rowLE
    ((db.reservations.filter (fun (r : Reservation) =>
        today ≤ r.reservation_date)).filterMap
      (fun (r : Reservation) =>
        match findCustomer db r.customer_id, findTable db r.table_id with
        | some c, some t => some (mkUpcomingRow r c t)
        | _, _ => none))

/-- `list_reservations` (src/cli.py lines 237-274) as the list of rows it
renders: the query result, optionally filtered to one date, of which only the
first 20 rows are added to the displayed table (`results[:20]`, line 263). -/
def list_reservations (today : Nat) (db : DB) (dateFilter : Option Nat) :
    List UpcomingRow :=
  let results := get_upcoming_reservations today db
  let filtered := match dateFilter with
    | some d => results.filter (fun (r : UpcomingRow) => r.reservation_date == d)
    | none => results
  filtered.take 20

/-! Concrete states and requests used to instantiate the theorems. -/

/-- A customer row. -/
def exCustomer : Customer :=
  { customer_id := 1, first_name := "Alice", last_name := "Smith" }

/-- A table row: table T01 with capacity 4. -/
def exTable : TableRec :=
  { table_id := 1, table_number := "T01", capacity := 4, is_active := true }

/-- A confirmed reservation on table 1, day 100, at 17:00 (1020 minutes). -/
def exRes1700 : Reservation :=
  { reservation_id := 1, customer_id := 1, table_id := 1, reservation_date := 100
    reservation_time := 1020, party_size := 2, status := .Confirmed
    special_requests := none }

/-- A category row. -/
def exCategory : Category := { category_id := 1, cat_name := "Mains" }

/-- A menu item row priced at 10. -/
def exItem : MenuItem :=
  { item_id := 1, name := "Burger", description := none, price := 10
    category_id := 1, is_available := true }

/-- An order with status Open. -/
def exOrderOpened : OrderRec :=
  { order_id := 1, customer_id := none, employee_id := 1, table_id := none
    status := .Opened, tip := 0 }

/-- An order with status Completed. -/
def exOrderDone : OrderRec :=
  { order_id := 2, customer_id := none, employee_id := 1, table_id := none
    status := .Completed, tip := 0 }

/-- A concrete database state. -/
def exDB : DB :=
  { customers := [exCustomer]
    tables := [exTable]
    reservations := [exRes1700]
    categories := [exCategory]
    menu_items := [exItem]
    orders := [exOrderOpened, exOrderDone]
    order_items := []
    nextReservationId := 2
    nextMenuItemId := 2
    nextOrderItemId := 1 }

/-- Reservation request for day 100 at 18:00 (1080 minutes), exactly 60
minutes after the existing 17:00 reservation on the same table and date. -/
def c1req : ReservationRequest :=
  { customer_id := 1, table_id := 1, res_date := 100, res_time := 1080
    party_size := 2, notes := none }

/-- Reservation request for day 100 at 20:00 (1200 minutes), well clear of the
existing 17:00 reservation. -/
def c1okReq : ReservationRequest :=
  { customer_id := 1, table_id := 1, res_date := 100, res_time := 1200
    party_size := 2, notes := none }

/-- A reservation request violating several preconditions at once: past date,
party size 0, unknown customer. -/
def c5badReq : ReservationRequest :=
  { customer_id := 99, table_id := 1, res_date := 50, res_time := 1080
    party_size := 0, notes := none }

/-- A unit of work that raises immediately. -/
def cworkFail : DB → Except Unit (Unit × DB) := fun _ => .error ()

/-- A unit of work that appends a category row and returns its id. -/
def cworkAddCat : DB → Except Unit (Nat × DB) := fun db =>
  .ok (7, { db with
              categories := db.categories ++ [{ category_id := 7, cat_name := "Sides" }] })

/-- Add-item request against the Completed order 2. -/
def c3req : OrderItemRequest :=
  { order_id := 2, item_id := 1, quantity := 1, notes := none }

/-- Add-item request against the open order 1: two units of item 1. -/
def c4req : OrderItemRequest :=
  { order_id := 1, item_id := 1, quantity := 2, notes := none }

/-- The order-item row `c4req` inserts into `exDB`. -/
def c4row : OrderItem :=
  { order_item_id := 1, order_id := 1, item_id := 1, quantity := 2
    unit_price := 10, special_instructions := none }

/-- The state after adding `c4req` to `exDB`. -/
def c4db2 : DB := { exDB with order_items := [c4row], nextOrderItemId := 2 }

/-- Add-item request with quantity 0. -/
def c7req : OrderItemRequest :=
  { order_id := 1, item_id := 1, quantity := 0, notes := none }

/-- Menu update supplying only a new price of 12. -/
def c6upd : MenuUpdateRequest :=
  { item_id := 1, price := some 12, available := none, description := none }

/-- Menu update supplying nothing. -/
def c6empty : MenuUpdateRequest :=
  { item_id := 1, price := none, available := none, description := none }

/-- A valid new-menu-item request. -/
def c10req : MenuAddRequest :=
  { name := "Cake", price := 6, category_id := 1, description := none }

/-- A new-menu-item request with price 0. -/
def c10badReq : MenuAddRequest :=
  { name := "Cake", price := 0, category_id := 1, description := none }

/-- Twenty-one Confirmed reservations on day 100, at minute 600 + i, with
reservation ids 1..21 in time order. -/
def c9reservations : List Reservation :=
  (List.range 21).map (fun i =>
    { reservation_id := i + 1, customer_id := 1, table_id := 1
      reservation_date := 100, reservation_time := 600 + i, party_size := 2
      status := .Confirmed, special_requests := none })

/-- A database holding the 21 reservations of `c9reservations`. -/
def c9db : DB :=
  { customers := [exCustomer]
    tables := [exTable]
    reservations := c9reservations
    categories := []
    menu_items := []
    orders := []
    order_items := []
    nextReservationId := 22
    nextMenuItemId := 1
    nextOrderItemId := 1 }

/-- The first reservation of `c9reservations`. -/
def c9res : Reservation :=
  { reservation_id := 1, customer_id := 1, table_id := 1
    reservation_date := 100, reservation_time := 600, party_size := 2
    status := .Confirmed, special_requests := none }

/-- C1: the claim as stated is false on the code.  In `exDB` a Confirmed
reservation exists on table 1, day 100, at 17:00, and the request `c1req`
asks for the same table and date at 18:00 — an absolute time difference of
exactly 60 minutes, inside the claimed closed conflict interval — yet
`create_reservation` succeeds and inserts a row. -/
theorem c1_counterexample :
    (∃ r ∈ exDB.reservations,
        r.table_id = c1req.table_id ∧ r.reservation_date = c1req.res_date ∧
        (r.status = ResStatus.Confirmed ∨ r.status = ResStatus.Seated) ∧
        ((c1req.res_time : Int) - (r.reservation_time : Int)).natAbs ≤ 60) ∧
    create_reservation 100 true exDB c1req =
      .ok ({ exDB with
               reservations := exDB.reservations ++ [newReservationRow exDB c1req]
               nextReservationId := 3 }, 2) ∧
    (commitOf exDB (create_reservation 100 true exDB c1req)).reservations.length =
      exDB.reservations.length + 1 := by
  decide

/-- C1 (amended): with the other preconditions satisfied, `create_reservation`
fails with the slot-conflict error exactly when a Confirmed/Seated reservation
on the same table and date lies in the code's window, and otherwise inserts
the row; the code's window, for request times from 01:00 to 22:59, contains
the times strictly more than 60 minutes before the request up to and including
exactly 60 minutes after it (so a reservation exactly 60 minutes earlier does
not conflict), and when the ±60-minute window crosses midnight no time at all
is flagged as conflicting. -/
theorem c1_amended (today : Nat) (db : DB) (req : ReservationRequest)
    (c : Customer) (tbl : TableRec)
    (hdate : ¬ req.res_date < today) (hparty : ¬ req.party_size < 1)
    (hc : findCustomer db req.customer_id = some c)
    (ht : findTable db req.table_id = some tbl)
    (_hcap : req.party_size ≤ tbl.capacity) :
    (hasSlotConflict db req.table_id req.res_date req.res_time = true →
       create_reservation today true db req = .error .slotConflict) ∧
    (hasSlotConflict db req.table_id req.res_date req.res_time = false →
       create_reservation today true db req =
         .ok ({ db with
                  reservations := db.reservations ++ [newReservationRow db req]
                  nextReservationId := db.nextReservationId + 1 },
              db.nextReservationId)) ∧
    (∀ t x : Nat, 60 ≤ t → t ≤ 1379 →
       (inConflictWindow t x = true ↔ t - 60 < x ∧ x ≤ t + 60)) ∧
    (∀ t x : Nat, t < 1440 → (t < 60 ∨ 1380 ≤ t) →
       inConflictWindow t x = false) := by
  refine ⟨?_, ?_, ?_, ?_⟩
  · intro hconf
    simp [create_reservation, hc, ht, if_neg hdate, if_neg hparty, hconf]
  · intro hconf
    simp [create_reservation, hc, ht, if_neg hdate, if_neg hparty, hconf]
  · intro t x h1 h2
    simp only [inConflictWindow, timeShift, Bool.and_eq_true, decide_eq_true_eq]
    omega
  · intro t x h1 h2
    simp only [inConflictWindow, timeShift, Bool.and_eq_false_iff,
      decide_eq_false_iff_not, not_lt, not_le]
    omega

/-- C1 (amended) at a concrete input: the request `c1okReq` for 20:00 on day
100 has no window conflict with the 17:00 reservation and succeeds. -/
theorem c1_amended_witness :
    create_reservation 100 true exDB c1okReq =
      .ok ({ exDB with
               reservations := exDB.reservations ++ [newReservationRow exDB c1okReq]
               nextReservationId := exDB.nextReservationId + 1 },
           exDB.nextReservationId) :=
  (c1_amended 100 exDB c1okReq exCustomer exTable (by decide) (by decide)
    (by decide) (by decide) (by decide)).2.1 (by decide)

/-- C2: a unit of work run under `get_db_cursor` commits the body's final
state and propagates its value when no exception occurs; when the body raises,
the committed state is the one acquired (full rollback) and the exception is
propagated; and on both exit paths the cursor and the connection are closed. -/
theorem c2_transaction (E α : Type) (db : DB) (work : DB → Except E (α × DB)) :
    (∀ e, work db = .error e →
       (get_db_cursor db work).committed = db ∧
       (get_db_cursor db work).outcome = .error e) ∧
    (∀ a db2, work db = .ok (a, db2) →
       (get_db_cursor db work).committed = db2 ∧
       (get_db_cursor db work).outcome = .ok a) ∧
    (get_db_cursor db work).cursorClosed = true ∧
    (get_db_cursor db work).connClosed = true := by
  refine ⟨?_, ?_, ?_⟩
  · intro e he
    simp [get_db_cursor, he]
  · intro a db2 hw
    simp [get_db_cursor, hw]
  · cases h : work db with
    | ok p =>
      obtain ⟨a, db2⟩ := p
      simp [get_db_cursor, h]
    | error e =>
      simp [get_db_cursor, h]

/-- C2 at concrete inputs: a failing body leaves `exDB` committed and the
error propagated; a body that appends a category commits the appended state
and propagates its value. -/
theorem c2_transaction_witness :
    ((get_db_cursor exDB cworkFail).committed = exDB ∧
      (get_db_cursor exDB cworkFail).outcome = .error ()) ∧
    ((get_db_cursor exDB cworkAddCat).committed =
        { exDB with
            categories := exDB.categories ++ [{ category_id := 7, cat_name := "Sides" }] } ∧
      (get_db_cursor exDB cworkAddCat).outcome = .ok 7) :=
  ⟨(c2_transaction Unit Unit exDB cworkFail).1 () rfl,
   (c2_transaction Unit Nat exDB cworkAddCat).2.1 7
     { exDB with
         categories := exDB.categories ++ [{ category_id := 7, cat_name := "Sides" }] }
     rfl⟩

/-- C3: an add-item request for an existing order whose status is Completed or
Cancelled fails with the order-closed error, the state is unchanged, and in
particular the order's order_items count is unchanged. -/
theorem c3_closed_order (taxRate : Rat) (conf : Bool) (db : DB)
    (req : OrderItemRequest) (o : OrderRec)
    (hq : ¬ req.quantity < 1)
    (ho : findOrder db req.order_id = some o)
    (hst : o.status = .Completed ∨ o.status = .Cancelled) :
    add_order_item taxRate conf db req = .error .orderClosed ∧
    commitOf db (add_order_item taxRate conf db req) = db ∧
    ((commitOf db (add_order_item taxRate conf db req)).order_items.filter
        (fun oi => oi.order_id == req.order_id)).length =
      (db.order_items.filter (fun oi => oi.order_id == req.order_id)).length := by
  have h : add_order_item taxRate conf db req = .error .orderClosed := by
    simp only [add_order_item, if_neg hq, ho]
    rw [if_pos hst]
  exact ⟨h, by rw [h]; rfl, by rw [h]; rfl⟩

/-- C3 at a concrete input: adding item 1 to the Completed order 2 of `exDB`
fails with the order-closed error and leaves the state unchanged. -/
theorem c3_closed_order_witness :
    add_order_item 0 true exDB c3req = .error .orderClosed ∧
    commitOf exDB (add_order_item 0 true exDB c3req) = exDB :=
  ⟨(c3_closed_order 0 true exDB c3req exOrderDone (by decide) (by decide)
      (by decide)).1,
   (c3_closed_order 0 true exDB c3req exOrderDone (by decide) (by decide)
      (by decide)).2.1⟩

/-- C7: an add-item request with quantity below 1 fails with the
invalid-quantity error for every database state (so the check precedes any
database access), leaves the state unchanged, and in particular leaves the
order's subtotal unchanged. -/
theorem c7_quantity_guard (taxRate : Rat) (conf : Bool) (req : OrderItemRequest)
    (hq : req.quantity < 1) :
    (∀ db : DB, add_order_item taxRate conf db req = .error .invalidQuantity) ∧
    (∀ db db2 : DB,
       add_order_item taxRate conf db req = add_order_item taxRate conf db2 req) ∧
    (∀ db : DB, commitOf db (add_order_item taxRate conf db req) = db ∧
       orderSubtotal (commitOf db (add_order_item taxRate conf db req)) req.order_id =
         orderSubtotal db req.order_id) := by
  have h : ∀ db : DB, add_order_item taxRate conf db req = .error .invalidQuantity := by
    intro db
    simp [add_order_item, hq]
  refine ⟨h, fun db db2 => by rw [h db, h db2], fun db => ?_⟩
  rw [h db]
  exact ⟨rfl, rfl⟩

/-- C7 at a concrete input: quantity 0 is rejected on `exDB` with no state
change. -/
theorem c7_quantity_guard_witness :
    add_order_item 0 true exDB c7req = .error .invalidQuantity ∧
    commitOf exDB (add_order_item 0 true exDB c7req) = exDB :=
  ⟨(c7_quantity_guard 0 true c7req (by decide)).1 exDB,
   ((c7_quantity_guard 0 true c7req (by decide)).2.2 exDB).1⟩

/-- C8: the claim as stated is false on the code.  The connection
`init_database` opens to execute the schema script (src/database.py line 78)
is a raw `sqlite3.connect` that never issues `PRAGMA foreign_keys = ON`, so
foreign-key enforcement is off on that connection. -/
theorem c8_counterexample : init_database_connection.foreign_keys = false := rfl

/-- C8 (amended): every connection opened through `get_connection` — hence
every unit of work run by `get_db_cursor`, which is every workflow and query —
has foreign-key enforcement on, but the raw connection `init_database` (and
`reset_database`, which delegates to it) uses for the schema script does
not. -/
theorem c8_amended :
    get_connection.foreign_keys = true ∧
    get_connection.row_factory_row = true ∧
    init_database_connection.foreign_keys = false :=
  ⟨rfl, rfl, rfl⟩

/-- C10: a new-menu-item request with a non-positive price is rejected with
the invalid-price error for every database state (the check precedes any
database access) and changes nothing; with a positive price and a nonexistent
category it fails with the category-not-found error and changes nothing; with
a positive price and an existing category it inserts exactly one menu_items
row carrying the given name, description, price and category id. -/
theorem c10_add_menu_item (db : DB) (req : MenuAddRequest) :
    (req.price ≤ 0 →
       (∀ db2 : DB, add_menu_item db2 req = .error .invalidPrice) ∧
       commitOf db (add_menu_item db req) = db) ∧
    (0 < req.price → findCategory db req.category_id = none →
       add_menu_item db req = .error (.categoryNotFound req.category_id) ∧
       commitOf db (add_menu_item db req) = db) ∧
    (∀ c, 0 < req.price → findCategory db req.category_id = some c →
       add_menu_item db req =
         .ok ({ db with
                  menu_items := db.menu_items ++
                    [{ item_id := db.nextMenuItemId, name := req.name
                       description := req.description, price := req.price
                       category_id := req.category_id, is_available := true }]
                  nextMenuItemId := db.nextMenuItemId + 1 }, db.nextMenuItemId)) := by
  refine ⟨?_, ?_, ?_⟩
  · intro hp
    have h : ∀ db2 : DB, add_menu_item db2 req = .error .invalidPrice := by
      intro db2
      simp [add_menu_item, hp]
    exact ⟨h, by rw [h db]; rfl⟩
  · intro hp hcat
    have hne : ¬ req.price ≤ 0 := not_le.mpr hp
    have h : add_menu_item db req = .error (.categoryNotFound req.category_id) := by
      simp [add_menu_item, hne, hcat]
    exact ⟨h, by rw [h]; rfl⟩
  · intro c hp hcat
    have hne : ¬ req.price ≤ 0 := not_le.mpr hp
    simp [add_menu_item, hne, hcat]

/-- C10 at concrete inputs: the valid request inserts its row into `exDB`;
the price-0 request is rejected with no state change. -/
theorem c10_add_menu_item_witness :
    add_menu_item exDB c10req =
      .ok ({ exDB with
               menu_items := exDB.menu_items ++
                 [{ item_id := exDB.nextMenuItemId, name := c10req.name
                    description := c10req.description, price := c10req.price
                    category_id := c10req.category_id, is_available := true }]
               nextMenuItemId := exDB.nextMenuItemId + 1 }, exDB.nextMenuItemId) ∧
    add_menu_item exDB c10badReq = .error .invalidPrice ∧
    commitOf exDB (add_menu_item exDB c10badReq) = exDB :=
  ⟨(c10_add_menu_item exDB c10req).2.2 exCategory (by decide) (by decide),
   ((c10_add_menu_item exDB c10badReq).1 (by decide)).1 exDB,
   ((c10_add_menu_item exDB c10badReq).1 (by decide)).2⟩

/-- C5: `create_reservation` reports the earliest violated check in the order
date, party size, customer, table, capacity (warning only, override allowed),
slot conflict — each error conjunct assumes the earlier checks pass — and on
every error path the state is unchanged. -/
theorem c5_ordered_checks (today : Nat) (db : DB) (req : ReservationRequest) :
    (req.res_date < today →
       ∀ conf : Bool, create_reservation today conf db req = .error .invalidDate) ∧
    (¬ req.res_date < today → req.party_size < 1 →
       ∀ conf : Bool,
         create_reservation today conf db req = .error .invalidPartySize) ∧
    (¬ req.res_date < today → ¬ req.party_size < 1 →
       findCustomer db req.customer_id = none →
       ∀ conf : Bool,
         create_reservation today conf db req =
           .error (.customerNotFound req.customer_id)) ∧
    (∀ c, ¬ req.res_date < today → ¬ req.party_size < 1 →
       findCustomer db req.customer_id = some c →
       findTable db req.table_id = none →
       ∀ conf : Bool,
         create_reservation today conf db req =
           .error (.tableNotFound req.table_id)) ∧
    (∀ c tbl, ¬ req.res_date < today → ¬ req.party_size < 1 →
       findCustomer db req.customer_id = some c →
       findTable db req.table_id = some tbl →
       req.party_size > tbl.capacity →
       hasSlotConflict db req.table_id req.res_date req.res_time = false →
       create_reservation today true db req =
         .ok ({ db with
                  reservations := db.reservations ++ [newReservationRow db req]
                  nextReservationId := db.nextReservationId + 1 },
              db.nextReservationId)) ∧
    (∀ c tbl, ¬ req.res_date < today → ¬ req.party_size < 1 →
       findCustomer db req.customer_id = some c →
       findTable db req.table_id = some tbl →
       hasSlotConflict db req.table_id req.res_date req.res_time = true →
       create_reservation today true db req = .error .slotConflict) ∧
    (∀ (conf : Bool) (e : Err),
       create_reservation today conf db req = .error e →
       commitOf db (create_reservation today conf db req) = db) := by
  refine ⟨?_, ?_, ?_, ?_, ?_, ?_, ?_⟩
  · intro h conf
    simp [create_reservation, h]
  · intro h1 h2 conf
    simp [create_reservation, h1, h2]
  · intro h1 h2 h3 conf
    simp [create_reservation, h1, h2, h3]
  · intro c h1 h2 h3 h4 conf
    simp [create_reservation, h1, h2, h3, h4]
  · intro c tbl h1 h2 h3 h4 _h5 h6
    simp [create_reservation, h1, h2, h3, h4, h6]
  · intro c tbl h1 h2 h3 h4 h5
    simp [create_reservation, h1, h2, h3, h4, h5]
  · intro conf e h
    rw [h]
    rfl

/-- C5 at a concrete input: `c5badReq` has a past date, party size 0 and an
unknown customer at once, and the reported error is the invalid-date one,
with the state unchanged. -/
theorem c5_ordered_checks_witness :
    create_reservation 100 true exDB c5badReq = .error .invalidDate ∧
    commitOf exDB (create_reservation 100 true exDB c5badReq) = exDB :=
  ⟨(c5_ordered_checks 100 exDB c5badReq).1 (by decide) true,
   (c5_ordered_checks 100 exDB c5badReq).2.2.2.2.2.2 true .invalidDate
     ((c5_ordered_checks 100 exDB c5badReq).1 (by decide) true)⟩

/-- C4: every successful `add_order_item` appends exactly one order_items row
whose unit price is the menu item's price in the pre-insertion state, and
`update_menu_item` never changes any order_items row, whatever it is asked to
update. -/
theorem c4_price_snapshot :
    (∀ (taxRate : Rat) (conf : Bool) (db : DB) (req : OrderItemRequest)
        (db2 : DB) (tot : Rat),
       add_order_item taxRate conf db req = .ok (db2, tot) →
       ∃ item, findMenuItem db req.item_id = some item ∧
         db2.order_items = db.order_items ++
           [{ order_item_id := db.nextOrderItemId
              order_id := req.order_id
              item_id := req.item_id
              quantity := req.quantity
              unit_price := item.price
              special_instructions := req.notes }]) ∧
    (∀ (db : DB) (req : MenuUpdateRequest),
       (commitOf db (update_menu_item db req)).order_items = db.order_items) := by
  constructor
  · intro taxRate conf db req db2 tot h
    simp only [add_order_item] at h
    split at h
    · exact absurd h (by simp)
    · split at h
      · exact absurd h (by simp)
      · split at h
        · exact absurd h (by simp)
        · split at h
          · exact absurd h (by simp)
          · rename_i item _
            split at h
            · exact absurd h (by simp)
            · simp only [Except.ok.injEq, Prod.mk.injEq] at h
              exact ⟨item, by assumption, by rw [← h.1]⟩
  · intro db req
    simp only [update_menu_item]
    split
    · rfl
    · split
      · rfl
      · split
        · rfl
        · split
          · rfl
          · split
            · rfl
            · rfl

/-- C4 at concrete inputs: adding two units of item 1 (price 10) to the open
order of `exDB` appends a row with unit price 10, and a price update on the
menu leaves the order_items of the resulting state unchanged. -/
theorem c4_price_snapshot_witness :
    (∃ item, findMenuItem exDB c4req.item_id = some item ∧
       c4db2.order_items = exDB.order_items ++
         [{ order_item_id := exDB.nextOrderItemId
            order_id := c4req.order_id
            item_id := c4req.item_id
            quantity := c4req.quantity
            unit_price := item.price
            special_instructions := c4req.notes }]) ∧
    (commitOf exDB (update_menu_item exDB c6upd)).order_items = exDB.order_items :=
  ⟨c4_price_snapshot.1 0 true exDB c4req c4db2
     (orderTotal 0 c4db2 c4req.order_id) rfl,
   c4_price_snapshot.2 exDB c6upd⟩

/-- Re-selecting a row by id after an id-preserving per-row update finds the
updated version of the row the original lookup found. -/
theorem find?_map_id_update (l : List MenuItem) (id : Nat)
    (f : MenuItem → MenuItem) (hf : ∀ mi, (f mi).item_id = mi.item_id) :
    (l.map (fun mi => if mi.item_id == id then f mi else mi)).find?
        (fun mi => mi.item_id == id) =
      (l.find? (fun mi => mi.item_id == id)).map f := by
  induction l with
  | nil => simp
  | cons a l ih =>
    by_cases h : a.item_id = id
    · rw [List.map_cons, if_pos (by simp [h]),
        List.find?_cons_of_pos _ (by simp [hf, h]),
        List.find?_cons_of_pos _ (by simp [h])]
      rfl
    · rw [List.map_cons, if_neg (by simp [h]),
        List.find?_cons_of_neg _ (by simp [h]),
        List.find?_cons_of_neg _ (by simp [h]), ih]

/-- C6: for an update request whose target row exists (with its category):
supplying no field fails with the no-change error and changes nothing;
supplying a non-positive price fails with the invalid-price error and changes
nothing; otherwise the operation succeeds, rewriting exactly the rows with the
target id by overwriting precisely the supplied fields — each supplied field
takes the supplied value, each omitted field keeps its old value, and name,
id and category are never touched — and returns the updated record joined
with its category name, while rows with other ids survive unchanged. -/
theorem c6_partial_update (db : DB) (req : MenuUpdateRequest) (mi : MenuItem)
    (hmi : findMenuItem db req.item_id = some mi) :
    (req.price = none → req.available = none → req.description = none →
       update_menu_item db req = .error .noChangeRequested ∧
       commitOf db (update_menu_item db req) = db) ∧
    (∀ p, req.price = some p → p ≤ 0 →
       update_menu_item db req = .error .invalidPrice ∧
       commitOf db (update_menu_item db req) = db) ∧
    (∀ c, findCategory db mi.category_id = some c →
       ¬ (req.price = none ∧ req.available = none ∧ req.description = none) →
       (∀ p, req.price = some p → 0 < p) →
       update_menu_item db req =
         .ok ({ db with
                  menu_items := db.menu_items.map (fun x =>
                    if x.item_id == req.item_id then applyMenuUpdate req x else x) },
              joinView (applyMenuUpdate req mi) c) ∧
       (∀ p, req.price = some p → (applyMenuUpdate req mi).price = p) ∧
       (req.price = none → (applyMenuUpdate req mi).price = mi.price) ∧
       (∀ b, req.available = some b → (applyMenuUpdate req mi).is_available = b) ∧
       (req.available = none →
          (applyMenuUpdate req mi).is_available = mi.is_available) ∧
       (∀ d, req.description = some d →
          (applyMenuUpdate req mi).description = some d) ∧
       (req.description = none →
          (applyMenuUpdate req mi).description = mi.description) ∧
       (applyMenuUpdate req mi).name = mi.name ∧
       (applyMenuUpdate req mi).item_id = mi.item_id ∧
       (applyMenuUpdate req mi).category_id = mi.category_id ∧
       (∀ x ∈ db.menu_items, x.item_id ≠ req.item_id →
          x ∈ (commitOf db (update_menu_item db req)).menu_items)) := by
  refine ⟨?_, ?_, ?_⟩
  · intro h1 h2 h3
    have h : update_menu_item db req = .error .noChangeRequested := by
      simp [update_menu_item, h1, h2, h3]
    exact ⟨h, by rw [h]; rfl⟩
  · intro p hp hle
    have h : update_menu_item db req = .error .invalidPrice := by
      have hbad : suppliedPriceBad (some p) = true := by
        simp [suppliedPriceBad, hle]
      simp [update_menu_item, hmi, hp, hbad]
    exact ⟨h, by rw [h]; rfl⟩
  · intro c hc hsome hpos
    have hcond :
        (req.price.isNone && req.available.isNone && req.description.isNone) = false := by
      rcases hp : req.price with _ | p <;>
        rcases ha : req.available with _ | b <;>
          rcases hd : req.description with _ | d <;>
            simp_all
    have hgood : suppliedPriceBad req.price = false := by
      rcases hp : req.price with _ | p
      · rfl
      · simp [suppliedPriceBad, not_le.mpr (hpos p hp)]
    have hfind2 :
        findMenuItem
          { db with
              menu_items := db.menu_items.map (fun x =>
                if x.item_id == req.item_id then applyMenuUpdate req x else x) }
          req.item_id = some (applyMenuUpdate req mi) := by
      show (db.menu_items.map (fun x =>
          if x.item_id == req.item_id then applyMenuUpdate req x else x)).find?
            (fun x => x.item_id == req.item_id) = _
      rw [find?_map_id_update db.menu_items req.item_id (applyMenuUpdate req)
        (fun _ => rfl)]
      rw [show db.menu_items.find? (fun x => x.item_id == req.item_id) = some mi
        from hmi]
      rfl
    have hcat2 : (applyMenuUpdate req mi).category_id = mi.category_id := rfl
    have h : update_menu_item db req =
        .ok ({ db with
                 menu_items := db.menu_items.map (fun x =>
                   if x.item_id == req.item_id then applyMenuUpdate req x else x) },
             joinView (applyMenuUpdate req mi) c) := by
      simp only [update_menu_item, hcond, Bool.false_eq_true, if_false, hmi, hgood,
        hfind2, hcat2]
      rw [show findCategory
          { db with
              menu_items := db.menu_items.map (fun x =>
                if x.item_id == req.item_id then applyMenuUpdate req x else x) }
          mi.category_id = some c from hc]
    refine ⟨h, ?_, ?_, ?_, ?_, ?_, ?_, rfl, rfl, rfl, ?_⟩
    · intro p hp
      simp [applyMenuUpdate, hp]
    · intro hp
      simp [applyMenuUpdate, hp]
    · intro b hb
      simp [applyMenuUpdate, hb]
    · intro hb
      simp [applyMenuUpdate, hb]
    · intro d hd
      simp [applyMenuUpdate, hd]
    · intro hd
      simp [applyMenuUpdate, hd]
    · intro x hx hne
      rw [h]
      refine List.mem_map.mpr ⟨x, hx, ?_⟩
      simp [hne]

/-- C6 at concrete inputs: updating item 1 of `exDB` with only a new price 12
succeeds and rewrites only that field of that row; the empty update fails with
the no-change error and leaves the state unchanged. -/
theorem c6_partial_update_witness :
    (update_menu_item exDB c6upd =
       .ok ({ exDB with
                menu_items := exDB.menu_items.map (fun x =>
                  if x.item_id == c6upd.item_id then applyMenuUpdate c6upd x else x) },
            joinView (applyMenuUpdate c6upd exItem) exCategory) ∧
     (applyMenuUpdate c6upd exItem).is_available = exItem.is_available ∧
     (applyMenuUpdate c6upd exItem).description = exItem.description) ∧
    update_menu_item exDB c6empty = .error .noChangeRequested ∧
    commitOf exDB (update_menu_item exDB c6empty) = exDB := by
  have hpos : ∀ p, c6upd.price = some p → (0 : Rat) < p := by
    intro p hp
    have : (12 : Rat) = p := by simpa [c6upd] using hp
    rw [← this]
    norm_num
  have hs := (c6_partial_update exDB c6upd exItem rfl).2.2 exCategory rfl
    (by simp [c6upd]) hpos
  have he := (c6_partial_update exDB c6empty exItem rfl).1 rfl rfl rfl
  exact ⟨⟨hs.1, hs.2.2.2.2.1 rfl, hs.2.2.2.2.2.2.1 rfl⟩, he.1, he.2⟩

/-- C9: the claim as stated is false on the code.  `c9db` holds 21 upcoming
reservations; the query result contains the reservation with id 21 (the
latest), but the listing renders only `results[:20]`, so that reservation is
omitted from what is presented. -/
theorem c9_counterexample :
    (∃ row ∈ get_upcoming_reservations 100 c9db, row.reservation_id = 21) ∧
    (∀ row ∈ list_reservations 100 c9db none, row.reservation_id ≠ 21) ∧
    (get_upcoming_reservations 100 c9db).length = 21 ∧
    (list_reservations 100 c9db none).length = 20 := by
  decide

/-- C9 (amended): the listing presents exactly the first 20 rows of the
upcoming-reservations query result; that result is sorted by date then time
ascending and contains every upcoming reservation whose customer and table
resolve, each joined with customer name and table number; and whenever the
result has at most 20 rows, nothing is omitted. -/
theorem c9_amended (today : Nat) (db : DB) :
    list_reservations today db none = (get_upcoming_reservations today db).take 20 ∧
    List.Sorted rowLE (get_upcoming_reservations today db) ∧
    (∀ r ∈ db.reservations, today ≤ r.reservation_date →
       ∀ c, findCustomer db r.customer_id = some c →
       ∀ t, findTable db r.table_id = some t →
         mkUpcomingRow r c t ∈ get_upcoming_reservations today db) ∧
    ((get_upcoming_reservations today db).length ≤ 20 →
       list_reservations today db none = get_upcoming_reservations today db) := by
  refine ⟨rfl, List.sorted_insertionSort rowLE _, ?_, ?_⟩
  · intro r hr hup c hc t ht
    unfold get_upcoming_reservations
    rw [List.mem_insertionSort, List.mem_filterMap]
    refine ⟨r, List.mem_filter.mpr ⟨hr, by simpa using hup⟩, ?_⟩
    simp [hc, ht]
  · intro hlen
    show (get_upcoming_reservations today db).take 20 = _
    exact List.take_of_length_le hlen

/-- C9 (amended) at a concrete input: the first reservation of `c9db` appears
in the query result, joined with the customer name and table number. -/
theorem c9_amended_witness :
    mkUpcomingRow c9res exCustomer exTable ∈ get_upcoming_reservations 100 c9db :=
  (c9_amended 100 c9db).2.2.1 c9res (by decide) (by decide) exCustomer (by decide)
    exTable (by decide)

end Restaurant
